import Mathlib

/-!
Shallow embedding of `src/app.py` (career-agent): the turn-resolver loop `chat`,
the tool dispatch `handle_tool_calls`, the two tool handlers
(`record_user_details`, `record_unknown_question`) and the pushover sender,
together with theorems settling the specification claims.

Modelling conventions:
* Python exceptions are modelled by `Except PyExc`; a value `Except.error e`
  at the top level of `chat` means the Python function raises `e` to its caller.
* The remote completion API (`openai.chat.completions.create`) is an external
  collaborator; it is modelled as an oracle `api : Nat → ApiOutcome` giving, for
  each successive call the turn makes, either the returned response or the
  raised exception (with the JSON body of its attached HTTP response, if any).
* `json.loads` on the serialized tool arguments is a Python-stdlib boundary; its
  outcome is modelled as `Option ArgsDict` on the request: `none` means the text
  fails to decode (`json.loads` raises `json.JSONDecodeError`), `some args`
  means it decodes to the string-to-string object `args` (the only shape the
  two registered tools are ever called with).
* `requests.post` inside `send_pushover` is modelled by `Env.post`, an oracle
  from the posted message to the outcome of the post plus `.json()` decoding.
* The resume PDF/summary files read at startup are process-wide constant
  strings; they are carried as fields of `Env`.
-/

namespace CareerAgent

/-- JSON values as manipulated by the program: handler results, pushover
response bodies and the error payload attached to a failed completion call are
all strings and string-keyed objects, so the embedding restricts JSON values to
those two forms. -/
inductive JVal where
  | jstr : String → JVal
  | jobj : List (String × JVal) → JVal

mutual

/-- Models Python `json.dumps` (default separators) on the values above:
strings are quoted, objects are rendered as `\x7b"k": v, ...\x7d`. -/
def jsonDumps : JVal → String
  | JVal.jstr s => "\"" ++ s ++ "\""
  | JVal.jobj fields => "\x7b" ++ jsonDumpsFields fields ++ "\x7d"

/-- Field list serialisation for `jsonDumps`. -/
def jsonDumpsFields : List (String × JVal) → String
  | [] => ""
  | [(k, v)] => "\"" ++ k ++ "\": " ++ jsonDumps v
  | (k, v) :: kv :: rest =>
      "\"" ++ k ++ "\": " ++ jsonDumps v ++ ", " ++ jsonDumpsFields (kv :: rest)

end

mutual

/-- Models CPython `repr` on the JSON values above (single-quoted strings,
brace-rendered dicts); only needed to make the f-string rendering total. -/
def pyRepr : JVal → String
  | JVal.jstr s => "\x27" ++ s ++ "\x27"
  | JVal.jobj fields => "\x7b" ++ pyReprFields fields ++ "\x7d"

/-- Field list rendering for `pyRepr`. -/
def pyReprFields : List (String × JVal) → String
  | [] => ""
  | [(k, v)] => "\x27" ++ k ++ "\x27: " ++ pyRepr v
  | (k, v) :: kv :: rest =>
      "\x27" ++ k ++ "\x27: " ++ pyRepr v ++ ", " ++ pyReprFields (kv :: rest)

end

/-- Models CPython `str()` on a JSON value (as interpolated by an f-string):
a string renders without quotes, a dict renders as its repr. -/
def pyStrOf : JVal → String
  | JVal.jstr s => s
  | JVal.jobj fields => pyRepr (JVal.jobj fields)

/-- Models CPython `str()` of a value that may be Python `None`
(`dict.get` with no default returns `None` when the key is absent). -/
def pyStrOpt : Option JVal → String
  | none => "None"
  | some v => pyStrOf v

/-- Python exceptions raised by the embedded code paths:
* `jsonDecodeError` — `json.loads` failed on tool-call arguments;
* `typeError` — a handler was called with unexpected or missing keyword
  arguments (the carried message abstracts CPython's wording);
* `apiError r` — the completion call raised; `r = some j` means the exception
  object has a `response` attribute whose `.json()` returns `j`, `r = none`
  means it carries no usable response payload;
* `attributeError` — attribute lookup failed (notably `.json()` / `.get` on an
  object that does not have it). -/
inductive PyExc where
  | jsonDecodeError
  | typeError (msg : String)
  | apiError (responseJson : Option JVal)
  | attributeError

/-- Models `getattr(e, "response", \x7b\x7d).json()` up to the point where it can
fail: `some j` when the exception carries a response whose body parses to `j`;
`none` when the attribute is absent, in which case the actual Python expression
goes on to call `.json()` on the default `\x7b\x7d` and raises `AttributeError`. -/
def getattr_response : PyExc → Option JVal
  | PyExc.apiError r => r
  | _ => none

/-- Models Python `d.get(k, \x7b\x7d)` on a parsed JSON value: raises
`AttributeError` when the value is not a dict (no `.get` attribute). -/
def pyDictGetD (j : JVal) (k : String) : Except PyExc JVal :=
  match j with
  | JVal.jobj fields => Except.ok ((List.lookup k fields).getD (JVal.jobj []))
  | _ => Except.error PyExc.attributeError

/-- Models Python `d.get(k)` (default `None`) on a parsed JSON value: raises
`AttributeError` when the value is not a dict. -/
def pyDictGet (j : JVal) (k : String) : Except PyExc (Option JVal) :=
  match j with
  | JVal.jobj fields => Except.ok (List.lookup k fields)
  | _ => Except.error PyExc.attributeError

/-- Outcome of the `requests.post(...)` call plus `response.json()` inside
`send_pushover`: either the decoded body, or an exception (whose `str()` is the
carried message). -/
inductive PostResult where
  | ok (body : JVal)
  | raises (msg : String)

/-- Process-wide configuration read at startup (`load_dotenv`, `os.getenv`,
the resume files) plus the outbound-notification I/O boundary. -/
structure Env where
  resume_summary : String
  resume_data : String
  pushover_user : Option String
  pushover_token : Option String
  post : String → PostResult

/-- Python truthiness of an environment variable (`os.getenv` result):
`None` and the empty string are falsy. -/
def pyTruthy : Option String → Bool
  | none => false
  | some s => !s.isEmpty

/-- Embeds `send_pushover` (src/app.py:85-110): returns an error dict when the
credentials are not configured, otherwise posts and returns the response body;
any exception from the post is caught and turned into an error dict. Never
raises. -/
def send_pushover (env : Env) (message : String) : JVal :=
  if !pyTruthy env.pushover_user || !pyTruthy env.pushover_token then
    JVal.jobj [("status", JVal.jstr "error"), ("message", JVal.jstr "Pushover not configured")]
  else
    match env.post message with
    | PostResult.ok body => body
    | PostResult.raises m =>
        JVal.jobj [("status", JVal.jstr "error"), ("message", JVal.jstr m)]

/-- Embeds `record_user_details` (src/app.py:112-126): forwards a notification
(whose outcome is discarded) and returns `\x7b"status": "success"\x7d`. -/
def record_user_details (env : Env) (email : String) (name : String) (notes : String) : JVal :=
  let _notification := send_pushover env
    ("User details recorded: email: " ++ email ++ ", Name: " ++ name ++ ", note:" ++ notes)
  JVal.jobj [("status", JVal.jstr "success")]

/-- Embeds `record_unknown_question` (src/app.py:128-140): forwards a
notification (whose outcome is discarded) and returns `\x7b"status": "success"\x7d`. -/
def record_unknown_question (env : Env) (question : String) : JVal :=
  let _notification := send_pushover env ("Unknown question: " ++ question)
  JVal.jobj [("status", JVal.jstr "success")]

/-- Decoded tool-call arguments: the string-keyed, string-valued object
produced by `json.loads` on the serialized arguments. -/
abbrev ArgsDict := List (String × String)

/-- Models the Python call `record_user_details(**args)`: keyword binding
against the signature `(email, name="Not provided", notes="not provided")`.
An argument name outside the signature raises `TypeError`; a missing `email`
raises `TypeError`; omitted optional parameters take their signature defaults. -/
def call_record_user_details (env : Env) (args : ArgsDict) : Except PyExc JVal :=
  if args.any (fun kv => !(kv.1 == "email" || kv.1 == "name" || kv.1 == "notes")) then
    Except.error (PyExc.typeError "record_user_details got an unexpected keyword argument")
  else
    match List.lookup "email" args with
    | none => Except.error (PyExc.typeError "record_user_details missing required argument: email")
    | some email =>
        Except.ok (record_user_details env email
          ((List.lookup "name" args).getD "Not provided")
          ((List.lookup "notes" args).getD "not provided"))

/-- Models the Python call `record_unknown_question(**args)`: keyword binding
against the signature `(question)`. -/
def call_record_unknown_question (env : Env) (args : ArgsDict) : Except PyExc JVal :=
  if args.any (fun kv => !(kv.1 == "question")) then
    Except.error (PyExc.typeError "record_unknown_question got an unexpected keyword argument")
  else
    match List.lookup "question" args with
    | none => Except.error (PyExc.typeError "record_unknown_question missing required argument: question")
    | some question => Except.ok (record_unknown_question env question)

/-- One `tool_call.function` object: the requested tool name and the outcome of
`json.loads` on its serialized arguments (`none` = decode failure). -/
structure ToolFunctionCall where
  name : String
  arguments : Option ArgsDict
deriving DecidableEq

/-- One ToolCallRequest from an assistant message: opaque id plus function. -/
structure ToolCall where
  id : String
  function : ToolFunctionCall
deriving DecidableEq

/-- Transcript messages, as the dict/object values the program appends:
the seeded system message, the user message, the assistant message object
appended on a tool-call response (content plus its tool-call requests), and the
tool-result dicts built by `handle_tool_calls` (serialized result plus the
originating `tool_call_id`). -/
inductive Message where
  | system (content : String)
  | user (content : String)
  | assistant (content : Option String) (tool_calls : List ToolCall)
  | tool (content : String) (tool_call_id : String)
deriving DecidableEq

/-- Embeds `handle_tool_calls` (src/app.py:206-228): iterates the requests in
order; a request named `record_user_details` or `record_unknown_question` is
decoded (`json.loads`, which may raise) and dispatched (which may raise
`TypeError`), and on success one tool-result message carrying the serialized
result and the request's id is appended; any other name is silently skipped. -/
def handle_tool_calls (env : Env) : List ToolCall → Except PyExc (List Message)
  | [] => Except.ok []
  | tc :: rest =>
    if tc.function.name = "record_user_details" then
      match tc.function.arguments with
      | none => Except.error PyExc.jsonDecodeError
      | some args =>
        match call_record_user_details env args with
        | Except.error e => Except.error e
        | Except.ok result =>
          match handle_tool_calls env rest with
          | Except.error e => Except.error e
          | Except.ok rs => Except.ok (Message.tool (jsonDumps result) tc.id :: rs)
    else if tc.function.name = "record_unknown_question" then
      match tc.function.arguments with
      | none => Except.error PyExc.jsonDecodeError
      | some args =>
        match call_record_unknown_question env args with
        | Except.error e => Except.error e
        | Except.ok result =>
          match handle_tool_calls env rest with
          | Except.error e => Except.error e
          | Except.ok rs => Except.ok (Message.tool (jsonDumps result) tc.id :: rs)
    else
      handle_tool_calls env rest

/-- The `message` object of a completion choice: content (possibly `None`) and
the tool-call requests (empty when none were made). -/
structure AssistantMessage where
  content : Option String
  tool_calls : List ToolCall
deriving DecidableEq

/-- One completion API response (`response.choices[0]`). -/
structure ChatResponse where
  finish_reason : String
  message : AssistantMessage
deriving DecidableEq

/-- Outcome of one call to `openai.chat.completions.create`: a response, or a
raised exception carrying (optionally) the JSON body of its attached HTTP
response. -/
inductive ApiOutcome where
  | ok (response : ChatResponse)
  | err (responseJson : Option JVal)

/-- How one turn of `chat` ends:
* `earlyReturn` — the `except` block returned its apology-plus-detail string;
* `uncaught` — an exception escaped `chat` (raised inside the `except` block);
* `finished` — the loop exited normally; the final `return` then renders the
  recorded last response. -/
inductive ChatOutcome where
  | earlyReturn (text : String)
  | uncaught (e : PyExc)
  | finished (response : ChatResponse)

/-- Full observable trace of one turn: how it ended, the local transcript
`messages`, the caller-supplied `history` list as left behind by the turn, and
the number of completion API calls issued. -/
structure ChatExit where
  outcome : ChatOutcome
  messages : List Message
  history : List Message
  calls : Nat

/-- Embeds the `except Exception as e` block of `chat` (src/app.py:268-272):
evaluates `getattr(e, "response", \x7b\x7d).json().get("error", \x7b\x7d).get("message")`
and returns the apology string with the extracted detail appended; when the
exception has no usable response payload the expression itself raises
`AttributeError` (`.json()` on the dict default), which escapes `chat`. -/
def except_handler (e : PyExc) : ChatOutcome :=
  match getattr_response e with
  | none => ChatOutcome.uncaught PyExc.attributeError
  | some j =>
    match pyDictGetD j "error" with
    | Except.error ex => ChatOutcome.uncaught ex
    | Except.ok jerr =>
      match pyDictGet jerr "message" with
      | Except.error ex => ChatOutcome.uncaught ex
      | Except.ok em =>
          ChatOutcome.earlyReturn
            ("I apologize, but I encountered an error processing your request. \n " ++ pyStrOpt em)

/-- Embeds the `while not done and iteration < max_iterations` loop of `chat`
(src/app.py:250-266). `fuel` is `max_iterations - iteration` at loop entry
(strictly positive whenever the loop body runs; `chat` enters with `fuel = 10`
and the recursion keeps it positive, so the `fuel = 0` arm is unreachable from
`chat`). Each round calls the API oracle at index `calls`; a `tool_calls`
finish reason dispatches the batch, appends the assistant message and the
results, and either iterates or — when the incremented iteration counter
reaches the budget — exits with the current response recorded; any other
finish reason exits the loop (`done = True`); a raised exception is routed to
`except_handler`. -/
def chatLoop (env : Env) (api : Nat → ApiOutcome) :
    Nat → List Message → List Message → Nat → ChatExit
  | fuel, messages, history, calls =>
  match api calls with
  | ApiOutcome.err rj => ⟨except_handler (PyExc.apiError rj), messages, history, calls + 1⟩
  | ApiOutcome.ok response =>
    if response.finish_reason = "tool_calls" then
      match handle_tool_calls env response.message.tool_calls with
      | Except.error e => ⟨except_handler e, messages, history, calls + 1⟩
      | Except.ok results =>
        match fuel with
        | 0 =>
            ⟨ChatOutcome.finished response,
              messages ++ Message.assistant response.message.content response.message.tool_calls :: results,
              history, calls + 1⟩
        | f + 1 =>
            match f with
            | 0 =>
                ⟨ChatOutcome.finished response,
                  messages ++ Message.assistant response.message.content response.message.tool_calls :: results,
                  history, calls + 1⟩
            | g + 1 =>
                chatLoop env api (g + 1)
                  (messages ++ Message.assistant response.message.content response.message.tool_calls :: results)
                  history (calls + 1)
    else ⟨ChatOutcome.finished response, messages, history, calls + 1⟩

/-- The person the agent represents (src/app.py:190). -/
def name : String := "Ramesh Erigipally"

/-- Embeds the system prompt construction (src/app.py:193-204) from the
startup-loaded summary and resume strings. -/
def system_prompt (resume_summary resume_data : String) : String :=
  "\nYour character is " ++ name ++ ". You are responsible for answering questions related to "
    ++ name ++ ", his background, skills and experience.\nYou are given a summary of a person\x27s background and LinkedIn profile which you can use to answer questions.\nYou are also given a resume of the person.\nYou are given with "
    ++ name ++ "\x27s resume data and summary of his background and LinkedIn profile.\n"
    ++ "Summary:\n" ++ resume_summary ++ "\n\nResume:\n" ++ resume_data
    ++ "With this context, please chat with the user, always staying in character as " ++ name ++ "."
    ++ "If you don\x27t know the answer use the tool record_unknown_question to record the question that you couldn\x27t answer, even if it\x27s about something trivial or unrelated to career."
    ++ "If the user is engaging in discussion, try to steer them towards getting in touch via email; ask for their email and record it using your record_user_details tool."

/-- Runs one turn and returns its full trace: the transcript is seeded as
`[system] + history + [user]` (a fresh list built by Python list `+`), the loop
starts with `iteration = 0` (`fuel = 10`) and no calls issued. -/
def chatTrace (env : Env) (api : Nat → ApiOutcome) (message : String)
    (history : List Message) : ChatExit :=
  chatLoop env api 10
    (Message.system (system_prompt env.resume_summary env.resume_data) :: history ++ [Message.user message])
    history 0

/-- The fixed fallback string of the final `return` (src/app.py:275). -/
def error_fallback : String :=
  "I apologize, but I encountered an error processing your request."

/-- Embeds the final `return` of `chat` (src/app.py:275): the last response's
content when truthy, the fixed fallback string when it is `None` or empty. -/
def final_return (content : Option String) : String :=
  match content with
  | some s => if s = "" then error_fallback else s
  | none => error_fallback

/-- Embeds `chat(message, history)` (src/app.py:231-275) as seen by its caller:
`Except.ok text` when the function returns `text`, `Except.error e` when an
exception `e` escapes it. -/
def chat (env : Env) (api : Nat → ApiOutcome) (message : String)
    (history : List Message) : Except PyExc String :=
  match (chatTrace env api message history).outcome with
  | ChatOutcome.earlyReturn s => Except.ok s
  | ChatOutcome.uncaught e => Except.error e
  | ChatOutcome.finished r => Except.ok (final_return r.message.content)

/-! ## Helper definitions and lemmas for the theorems -/

/-- Transcript suffix produced by the first `k` tool-call iterations of the
loop: for each iteration, the assistant message of the `i`-th response followed
by that iteration's tool-result messages. -/
def batchesFrom (resp : Nat → ChatResponse) (results : Nat → List Message) : Nat → List Message
  | 0 => []
  | k + 1 => batchesFrom resp results k ++
      Message.assistant (resp k).message.content (resp k).message.tool_calls :: results k

/-- The loop never touches the caller's `history` list and only ever appends to
its own `messages` list. -/
lemma chatLoop_frame (env : Env) (api : Nat → ApiOutcome) :
    ∀ (fuel : Nat) (msgs hist : List Message) (calls : Nat),
      (chatLoop env api fuel msgs hist calls).history = hist ∧
      ∃ tail, (chatLoop env api fuel msgs hist calls).messages = msgs ++ tail := by
  intro fuel
  induction fuel with
  | zero =>
    intro msgs hist calls
    rw [chatLoop]
    cases api calls with
    | err rj => exact ⟨rfl, [], by simp⟩
    | ok response =>
      dsimp only
      by_cases hfr : response.finish_reason = "tool_calls"
      · rw [if_pos hfr]
        cases handle_tool_calls env response.message.tool_calls with
        | error e => exact ⟨rfl, [], by simp⟩
        | ok results =>
          exact ⟨rfl,
            Message.assistant response.message.content response.message.tool_calls :: results, rfl⟩
      · rw [if_neg hfr]
        exact ⟨rfl, [], by simp⟩
  | succ f ih =>
    intro msgs hist calls
    rw [chatLoop]
    cases api calls with
    | err rj => exact ⟨rfl, [], by simp⟩
    | ok response =>
      dsimp only
      by_cases hfr : response.finish_reason = "tool_calls"
      · rw [if_pos hfr]
        cases handle_tool_calls env response.message.tool_calls with
        | error e => exact ⟨rfl, [], by simp⟩
        | ok results =>
          match f with
          | 0 =>
            exact ⟨rfl,
              Message.assistant response.message.content response.message.tool_calls :: results, rfl⟩
          | g + 1 =>
            obtain ⟨h1, tail, h2⟩ := ih
              (msgs ++ Message.assistant response.message.content response.message.tool_calls :: results)
              hist (calls + 1)
            exact ⟨h1,
              (Message.assistant response.message.content response.message.tool_calls :: results) ++ tail,
              by rw [h2, List.append_assoc]⟩
      · rw [if_neg hfr]
        exact ⟨rfl, [], by simp⟩

/-- Running the loop through `k` successful tool-call iterations (each response
requesting tools and each batch dispatching without raising) advances the call
index by `k`, spends `k` units of fuel and appends exactly the `k` batches. -/
lemma chatLoop_steps (env : Env) (api : Nat → ApiOutcome) (resp : Nat → ChatResponse)
    (results : Nat → List Message) (k fuel : Nat) (msgs hist : List Message)
    (hk : k < fuel)
    (hP : ∀ i, i < k → api i = ApiOutcome.ok (resp i) ∧ (resp i).finish_reason = "tool_calls" ∧
      handle_tool_calls env (resp i).message.tool_calls = Except.ok (results i)) :
    chatLoop env api fuel msgs hist 0 =
      chatLoop env api (fuel - k) (msgs ++ batchesFrom resp results k) hist k := by
  induction k with
  | zero => simp [batchesFrom]
  | succ k ih =>
    rw [ih (by omega) (fun i hi => hP i (by omega))]
    obtain ⟨f, hf⟩ : ∃ f, fuel - k = f + 2 := ⟨fuel - k - 2, by omega⟩
    obtain ⟨h1, h2, h3⟩ := hP k (by omega)
    rw [hf, chatLoop, h1]
    dsimp only
    rw [if_pos h2, h3]
    dsimp only
    have hfuel : f + 1 = fuel - (k + 1) := by omega
    rw [hfuel, batchesFrom, List.append_assoc]

/-- Unfolding the loop at a response whose finish reason is not `tool_calls`:
the loop exits with that response recorded and one more call issued. -/
lemma chatLoop_final (env : Env) (api : Nat → ApiOutcome) (fuel : Nat)
    (msgs hist : List Message) (calls : Nat) (r : ChatResponse)
    (hapi : api calls = ApiOutcome.ok r) (hfr : r.finish_reason ≠ "tool_calls") :
    chatLoop env api fuel msgs hist calls = ⟨ChatOutcome.finished r, msgs, hist, calls + 1⟩ := by
  rw [chatLoop, hapi]
  dsimp only
  rw [if_neg hfr]

/-- Errors raised inside `call_record_user_details` are `TypeError`s, which
carry no `response` attribute. -/
lemma call_record_user_details_error (env : Env) (args : ArgsDict) (e : PyExc)
    (h : call_record_user_details env args = Except.error e) : getattr_response e = none := by
  unfold call_record_user_details at h
  split at h
  · cases h; rfl
  · split at h
    · cases h; rfl
    · simp at h

/-- Errors raised inside `call_record_unknown_question` are `TypeError`s, which
carry no `response` attribute. -/
lemma call_record_unknown_question_error (env : Env) (args : ArgsDict) (e : PyExc)
    (h : call_record_unknown_question env args = Except.error e) : getattr_response e = none := by
  unfold call_record_unknown_question at h
  split at h
  · cases h; rfl
  · split at h
    · cases h; rfl
    · simp at h

/-- Every exception `handle_tool_calls` can raise (`json.JSONDecodeError` from
decoding, `TypeError` from keyword binding) carries no `response` attribute. -/
lemma handle_tool_calls_error (env : Env) :
    ∀ (tcs : List ToolCall) (e : PyExc),
      handle_tool_calls env tcs = Except.error e → getattr_response e = none := by
  intro tcs
  induction tcs with
  | nil => intro e h; simp [handle_tool_calls] at h
  | cons tc rest ih =>
    intro e h
    rw [handle_tool_calls] at h
    split at h
    · split at h
      · cases h; rfl
      · split at h
        next e1 heq => cases h; exact call_record_user_details_error env _ e heq
        next r heq =>
          split at h
          next e2 heq2 => cases h; exact ih e heq2
          next rs heq2 => simp at h
    · split at h
      · split at h
        · cases h; rfl
        · split at h
          next e1 heq => cases h; exact call_record_unknown_question_error env _ e heq
          next r heq =>
            split at h
            next e2 heq2 => cases h; exact ih e heq2
            next rs heq2 => simp at h
      · exact ih e h

/-- An exception with no usable response payload makes the `except` block itself
raise `AttributeError` (from `.json()` on the dict default of `getattr`). -/
lemma except_handler_no_response (e : PyExc) (h : getattr_response e = none) :
    except_handler e = ChatOutcome.uncaught PyExc.attributeError := by
  unfold except_handler
  rw [h]

/-- Successful `handle_tool_calls` over a batch of registered tool names
returns exactly one tool-result message per request, in request order, each
carrying the id of its request. -/
lemma handle_tool_calls_zip (env : Env) :
    ∀ (tcs : List ToolCall) (rs : List Message),
      (∀ tc ∈ tcs, tc.function.name = "record_user_details" ∨
        tc.function.name = "record_unknown_question") →
      handle_tool_calls env tcs = Except.ok rs →
      ∃ contents : List String, contents.length = tcs.length ∧
        rs = List.zipWith (fun tc c => Message.tool c tc.id) tcs contents := by
  intro tcs
  induction tcs with
  | nil =>
    intro rs _ h
    refine ⟨[], rfl, ?_⟩
    rw [handle_tool_calls] at h
    cases h
    rfl
  | cons tc rest ih =>
    intro rs hreg h
    rw [handle_tool_calls] at h
    rcases hreg tc (by simp) with hname | hname
    · rw [if_pos hname] at h
      split at h
      · exact absurd h (by simp)
      · split at h
        next e1 heq => exact absurd h (by simp)
        next r heq =>
          split at h
          next e2 heq2 => exact absurd h (by simp)
          next rs2 heq2 =>
            cases h
            obtain ⟨contents, hlen, hz⟩ := ih rs2 (fun x hx => hreg x (by simp [hx])) heq2
            exact ⟨jsonDumps r :: contents, by simp [hlen], by simp [hz]⟩
    · have hne : tc.function.name ≠ "record_user_details" := by
        rw [hname]; decide
      rw [if_neg hne, if_pos hname] at h
      split at h
      · exact absurd h (by simp)
      · split at h
        next e1 heq => exact absurd h (by simp)
        next r heq =>
          split at h
          next e2 heq2 => exact absurd h (by simp)
          next rs2 heq2 =>
            cases h
            obtain ⟨contents, hlen, hz⟩ := ih rs2 (fun x hx => hreg x (by simp [hx])) heq2
            exact ⟨jsonDumps r :: contents, by simp [hlen], by simp [hz]⟩

/-! ## Concrete fixtures used by witnesses and counterexamples -/

/-- Sample process configuration: configured pushover credentials and a
notification endpoint that succeeds. -/
def sampleEnv : Env :=
  ⟨"summary text", "resume text", some "user-key", some "token-key",
    fun _ => PostResult.ok (JVal.jobj [("status", JVal.jstr "ok")])⟩

/-- A tool-call request whose name matches no registered tool. -/
def unknownCall : ToolCall := ⟨"call_1", ⟨"get_weather", some []⟩⟩

/-- A well-formed request for `record_unknown_question`. -/
def questionCall : ToolCall :=
  ⟨"call_7", ⟨"record_unknown_question", some [("question", "What is the capital of X?")]⟩⟩

/-- A request for `record_user_details` whose serialized arguments fail to
decode (`json.loads` raises). -/
def malformedCall : ToolCall := ⟨"call_2", ⟨"record_user_details", none⟩⟩

/-- A request for `record_unknown_question` whose decoded arguments are
missing the required `question` parameter. -/
def missingParamCall : ToolCall := ⟨"call_3", ⟨"record_unknown_question", some []⟩⟩

/-- A final, non-tool-call completion response. -/
def respStop : ChatResponse := ⟨"stop", ⟨some "All done.", []⟩⟩

/-- A tool-call response carrying one well-formed registered request. -/
def respToolQuestion : ChatResponse := ⟨"tool_calls", ⟨none, [questionCall]⟩⟩

/-- A tool-call response carrying an empty batch. -/
def respToolEmpty : ChatResponse := ⟨"tool_calls", ⟨some "thinking", []⟩⟩

/-- API script: one tool-call response with an unknown-name request, then a
final response. -/
def apiUnknownTool : Nat → ApiOutcome := fun n =>
  match n with
  | 0 => ApiOutcome.ok ⟨"tool_calls", ⟨none, [unknownCall]⟩⟩
  | _ => ApiOutcome.ok respStop

/-- API script: one tool-call response with a well-formed registered request,
then a final response. -/
def apiOneQuestion : Nat → ApiOutcome := fun n =>
  match n with
  | 0 => ApiOutcome.ok respToolQuestion
  | _ => ApiOutcome.ok respStop

/-- API script: one tool-call response with an undecodable-arguments request,
then a final response. -/
def apiMalformed : Nat → ApiOutcome := fun n =>
  match n with
  | 0 => ApiOutcome.ok ⟨"tool_calls", ⟨none, [malformedCall]⟩⟩
  | _ => ApiOutcome.ok respStop

/-- API script: one tool-call response with a missing-required-parameter
request, then a final response. -/
def apiMissingParam : Nat → ApiOutcome := fun n =>
  match n with
  | 0 => ApiOutcome.ok ⟨"tool_calls", ⟨none, [missingParamCall]⟩⟩
  | _ => ApiOutcome.ok respStop

/-- The JSON body `\x7b"error": \x7b"message": "rate limited"\x7d\x7d` of a failed
completion call. -/
def rateLimitedBody : JVal :=
  JVal.jobj [("error", JVal.jobj [("message", JVal.jstr "rate limited")])]

/-! ## Claim theorems -/

/-- C8: for every invocation of `record_user_details`, and in particular for a
dispatch with a valid email argument, the call returns `\x7b"status": "success"\x7d`
for every environment — i.e. regardless of whether the downstream pushover call
succeeds, returns an error body, or raises (all covered by the universally
quantified `Env.post` oracle and credential fields); notification failures
never reach the result. -/
theorem C8_record_user_details_always_success (env : Env) (email name notes : String) :
    record_user_details env email name notes = JVal.jobj [("status", JVal.jstr "success")] ∧
    call_record_user_details env [("email", "a@b.com")] =
      Except.ok (JVal.jobj [("status", JVal.jstr "success")]) :=
  ⟨rfl, rfl⟩

/-- C9: a completion call that raises an error whose attached response has the
JSON body `\x7b"error": \x7b"message": "rate limited"\x7d\x7d` makes `chat` return a
text answer containing the substring "rate limited". -/
theorem C9_rate_limited_substring (env : Env) (message : String) (history : List Message) :
    chat env (fun _ => ApiOutcome.err (some rateLimitedBody)) message history =
      Except.ok ("I apologize, but I encountered an error processing your request. \n "
        ++ "rate limited") ∧
    ∃ p q, ("I apologize, but I encountered an error processing your request. \n "
        ++ "rate limited") = p ++ "rate limited" ++ q :=
  ⟨rfl, "I apologize, but I encountered an error processing your request. \n ", "", rfl⟩

/-- C10: `chat` never mutates the caller-supplied history list — the turn
leaves it unchanged — and the transcript it works on is the fresh local list
seeded as system message, history, new user message, to which the loop only
ever appends. -/
theorem C10_history_unchanged (env : Env) (api : Nat → ApiOutcome) (message : String)
    (history : List Message) :
    (chatTrace env api message history).history = history ∧
    ∃ tail, (chatTrace env api message history).messages =
      (Message.system (system_prompt env.resume_summary env.resume_data)
        :: history ++ [Message.user message]) ++ tail := by
  have h := chatLoop_frame env api 10
    (Message.system (system_prompt env.resume_summary env.resume_data)
      :: history ++ [Message.user message]) history 0
  exact h

/-- C4: code-bug evaluation — when the completion call raises an exception
that carries no usable response payload, the `except` block's own extraction
expression (`getattr(e, "response", \x7b\x7d).json()`) raises `AttributeError`,
so `chat` propagates an exception instead of returning the generic apology
the claim (and the evident intent of the `getattr` default) describes. -/
theorem C4_extraction_failure_raises :
    chat sampleEnv (fun _ => ApiOutcome.err none) "hi" [] = Except.error PyExc.attributeError :=
  rfl

/-- C2: for every turn whose completion responses are N successful tool-call
rounds followed by a response with a finish reason other than `tool_calls`,
`chat` returns exactly that response's content, and the fixed fallback string
when the content is empty or absent. -/
theorem C2_final_answer (env : Env) (api : Nat → ApiOutcome) (resp : Nat → ChatResponse)
    (results : Nat → List Message) (N : Nat) (final : ChatResponse) (hN : N < 10)
    (hiter : ∀ i, i < N → api i = ApiOutcome.ok (resp i) ∧
      (resp i).finish_reason = "tool_calls" ∧
      handle_tool_calls env (resp i).message.tool_calls = Except.ok (results i))
    (hfin : api N = ApiOutcome.ok final) (hfr : final.finish_reason ≠ "tool_calls")
    (message : String) (history : List Message) :
    chat env api message history = Except.ok (final_return final.message.content) ∧
    (∀ s, final.message.content = some s → s ≠ "" → final_return final.message.content = s) ∧
    ((final.message.content = none ∨ final.message.content = some "") →
      final_return final.message.content = error_fallback) := by
  refine ⟨?_, ?_, ?_⟩
  · unfold chat chatTrace
    rw [chatLoop_steps env api resp results N 10
        (Message.system (system_prompt env.resume_summary env.resume_data)
          :: history ++ [Message.user message]) history hN hiter,
      chatLoop_final env api (10 - N) _ history N final hfin hfr]
  · intro s hs hne
    rw [hs]
    simp [final_return, hne]
  · rintro (hc | hc) <;> rw [hc] <;> simp [final_return]

/-- C2 witness: a single non-tool-call response ends the turn with its
content. -/
theorem C2_witness :
    chat sampleEnv (fun _ => ApiOutcome.ok respStop) "hello" [] = Except.ok "All done." :=
  (C2_final_answer sampleEnv (fun _ => ApiOutcome.ok respStop) (fun _ => respStop)
    (fun _ => []) 0 respStop (by omega) (fun i hi => absurd hi (Nat.not_lt_zero i))
    rfl (by decide) "hello" []).1

/-- C3: when the first 10 completion responses all request tool calls (and each
batch dispatches without raising), the loop spends its budget and terminates
without raising: it issues exactly 10 completion requests (no 11th) and
returns the 10th response's content through the normal final-answer channel. -/
theorem C3_budget_exhausted (env : Env) (api : Nat → ApiOutcome) (resp : Nat → ChatResponse)
    (results : Nat → List Message)
    (hiter : ∀ i, i < 10 → api i = ApiOutcome.ok (resp i) ∧
      (resp i).finish_reason = "tool_calls" ∧
      handle_tool_calls env (resp i).message.tool_calls = Except.ok (results i))
    (message : String) (history : List Message) :
    chat env api message history = Except.ok (final_return (resp 9).message.content) ∧
    (chatTrace env api message history).calls = 10 ∧
    (chatTrace env api message history).outcome = ChatOutcome.finished (resp 9) := by
  obtain ⟨h1, h2, h3⟩ := hiter 9 (by omega)
  have hlast : chatLoop env api (10 - 9)
      ((Message.system (system_prompt env.resume_summary env.resume_data)
        :: history ++ [Message.user message]) ++ batchesFrom resp results 9) history 9 =
      ⟨ChatOutcome.finished (resp 9),
        ((Message.system (system_prompt env.resume_summary env.resume_data)
          :: history ++ [Message.user message]) ++ batchesFrom resp results 9)
          ++ Message.assistant (resp 9).message.content (resp 9).message.tool_calls :: results 9,
        history, 10⟩ := by
    rw [chatLoop, h1]
    dsimp only
    rw [if_pos h2, h3]
  have hloop : chatTrace env api message history =
      ⟨ChatOutcome.finished (resp 9),
        ((Message.system (system_prompt env.resume_summary env.resume_data)
          :: history ++ [Message.user message]) ++ batchesFrom resp results 9)
          ++ Message.assistant (resp 9).message.content (resp 9).message.tool_calls :: results 9,
        history, 10⟩ := by
    unfold chatTrace
    rw [chatLoop_steps env api resp results 9 10
        (Message.system (system_prompt env.resume_summary env.resume_data)
          :: history ++ [Message.user message]) history (by omega)
        (fun i hi => hiter i (by omega)),
      hlast]
  refine ⟨?_, ?_, ?_⟩
  · unfold chat
    rw [hloop]
  · rw [hloop]
  · rw [hloop]

/-- C3 witness: ten consecutive tool-call responses (each with an empty batch)
exhaust the budget; the 10th response's content is returned after exactly 10
requests. -/
theorem C3_witness :
    chat sampleEnv (fun _ => ApiOutcome.ok respToolEmpty) "hello" [] = Except.ok "thinking" ∧
    (chatTrace sampleEnv (fun _ => ApiOutcome.ok respToolEmpty) "hello" []).calls = 10 := by
  have h := C3_budget_exhausted sampleEnv (fun _ => ApiOutcome.ok respToolEmpty)
    (fun _ => respToolEmpty) (fun _ => []) (fun i hi => ⟨rfl, rfl, rfl⟩) "hello" []
  exact ⟨h.1, h.2.1⟩

/-- Response script for the C1 theorem witness. -/
def questionResp : Nat → ChatResponse := fun _ => respToolQuestion

/-- Tool-result batches for the C1 theorem witness. -/
def questionResults : Nat → List Message := fun _ =>
  [Message.tool (jsonDumps (record_unknown_question sampleEnv "What is the capital of X?")) "call_7"]

/-- C1 (amended): for every run in which the completion API returns N
consecutive tool-call responses (N < 10) followed by a non-tool-call response,
provided every request in those batches names a registered tool and its
dispatch succeeds, `chat` issues exactly N+1 completion requests and, for each
batch, appends one tool-result message per ToolCallRequest, in the order the
requests appear in the assistant message, each carrying the `tool_call_id` of
its corresponding request. (The unamended claim, without the registered-name
proviso, is refuted by `C1_counterexample_unknown_tool`.) -/
theorem C1_loop_requests_and_results (env : Env) (api : Nat → ApiOutcome)
    (resp : Nat → ChatResponse) (results : Nat → List Message) (N : Nat)
    (final : ChatResponse) (hN : N < 10)
    (hiter : ∀ i, i < N → api i = ApiOutcome.ok (resp i) ∧
      (resp i).finish_reason = "tool_calls" ∧
      handle_tool_calls env (resp i).message.tool_calls = Except.ok (results i))
    (hreg : ∀ i, i < N → ∀ tc ∈ (resp i).message.tool_calls,
      tc.function.name = "record_user_details" ∨ tc.function.name = "record_unknown_question")
    (hfin : api N = ApiOutcome.ok final) (hfr : final.finish_reason ≠ "tool_calls")
    (message : String) (history : List Message) :
    (chatTrace env api message history).calls = N + 1 ∧
    (chatTrace env api message history).messages =
      (Message.system (system_prompt env.resume_summary env.resume_data)
        :: history ++ [Message.user message]) ++ batchesFrom resp results N ∧
    ∀ i, i < N → ∃ contents : List String,
      contents.length = (resp i).message.tool_calls.length ∧
      results i = List.zipWith (fun tc c => Message.tool c tc.id)
        (resp i).message.tool_calls contents := by
  have hloop : chatTrace env api message history =
      ⟨ChatOutcome.finished final,
        (Message.system (system_prompt env.resume_summary env.resume_data)
          :: history ++ [Message.user message]) ++ batchesFrom resp results N,
        history, N + 1⟩ := by
    unfold chatTrace
    rw [chatLoop_steps env api resp results N 10
        (Message.system (system_prompt env.resume_summary env.resume_data)
          :: history ++ [Message.user message]) history hN hiter,
      chatLoop_final env api (10 - N) _ history N final hfin hfr]
  refine ⟨?_, ?_, ?_⟩
  · rw [hloop]
  · rw [hloop]
  · intro i hi
    exact handle_tool_calls_zip env _ _ (hreg i hi) (hiter i hi).2.2

/-- C1 witness: one well-formed `record_unknown_question` batch followed by a
final response — two requests issued, one tool-result message carrying the
request's id. -/
theorem C1_witness :
    (chatTrace sampleEnv apiOneQuestion "hello" []).calls = 1 + 1 ∧
    (chatTrace sampleEnv apiOneQuestion "hello" []).messages =
      (Message.system (system_prompt sampleEnv.resume_summary sampleEnv.resume_data)
        :: [] ++ [Message.user "hello"]) ++ batchesFrom questionResp questionResults 1 ∧
    ∀ i, i < 1 → ∃ contents : List String,
      contents.length = (questionResp i).message.tool_calls.length ∧
      questionResults i = List.zipWith (fun tc c => Message.tool c tc.id)
        (questionResp i).message.tool_calls contents := by
  have h := C1_loop_requests_and_results sampleEnv apiOneQuestion questionResp questionResults
    1 respStop (by omega)
    (by
      intro i hi
      have hi0 : i = 0 := by omega
      rw [hi0]
      exact ⟨rfl, rfl, rfl⟩)
    (by
      intro i hi tc htc
      have : tc = questionCall := by simpa [questionResp, respToolQuestion] using htc
      rw [this]
      right
      rfl)
    rfl (by decide) "hello" []
  exact h

/-- C1 counterexample: a batch whose single ToolCallRequest names an
unregistered tool. The resolver still issues N+1 = 2 requests, but appends no
tool-result message for the request — refuting "one tool-result message per
ToolCallRequest" as universally stated. -/
theorem C1_counterexample_unknown_tool :
    (chatTrace sampleEnv apiUnknownTool "hello" []).calls = 2 ∧
    (chatTrace sampleEnv apiUnknownTool "hello" []).messages =
      [Message.system (system_prompt "summary text" "resume text"), Message.user "hello",
        Message.assistant none [unknownCall]] ∧
    (⟨"tool_calls", ⟨none, [unknownCall]⟩⟩ : ChatResponse).message.tool_calls.length = 1 ∧
    ((chatTrace sampleEnv apiUnknownTool "hello" []).messages.countP
      (fun m => match m with | Message.tool _ _ => true | _ => false)) = 0 :=
  ⟨rfl, rfl, rfl, rfl⟩

/-- C5 (amended): a tool-call request whose serialized arguments fail to decode
or are missing a required parameter makes `handle_tool_calls` raise; the turn
does not complete with an answer — the chat-level `except` handler catches the
exception, but its own error-message extraction raises `AttributeError` (the
exception carries no response payload), which propagates to the caller. -/
theorem C5_malformed_args_abort_turn (env : Env) (api : Nat → ApiOutcome)
    (message : String) (history : List Message) (r : ChatResponse) (e : PyExc)
    (hapi : api 0 = ApiOutcome.ok r) (hfr : r.finish_reason = "tool_calls")
    (hh : handle_tool_calls env r.message.tool_calls = Except.error e) :
    chat env api message history = Except.error PyExc.attributeError := by
  unfold chat chatTrace
  rw [chatLoop, hapi]
  dsimp only
  rw [if_pos hfr, hh]
  dsimp only
  rw [except_handler_no_response e (handle_tool_calls_error env _ e hh)]

/-- C5 witness: a `record_unknown_question` request whose decoded arguments
lack the required `question` parameter aborts the turn with a propagated
`AttributeError`. -/
theorem C5_witness :
    chat sampleEnv apiMissingParam "hello" [] = Except.error PyExc.attributeError :=
  C5_malformed_args_abort_turn sampleEnv apiMissingParam "hello" []
    ⟨"tool_calls", ⟨none, [missingParamCall]⟩⟩
    (PyExc.typeError "record_unknown_question missing required argument: question")
    rfl rfl rfl

/-- C5 counterexample: a `record_user_details` request whose serialized
arguments fail to decode does not let the turn complete with an answer — `chat`
propagates an exception, refuting the claimed skip-and-continue policy. -/
theorem C5_counterexample_malformed_args :
    chat sampleEnv apiMalformed "hello" [] = Except.error PyExc.attributeError ∧
    ∀ s, chat sampleEnv apiMalformed "hello" [] ≠ Except.ok s :=
  ⟨rfl, fun _s h => Except.noConfusion h⟩

/-- C6 (amended): unknown extra keys are not tolerated — the handler call
raises `TypeError` (see `C6_counterexample_extra_key`) — but a request to a
registered tool whose decoded arguments use only declared parameter names and
include the required `email` invokes the handler successfully (omitted optional
parameters take the signature defaults), and the handler's result is returned
as the tool-result message. -/
theorem C6_declared_args_dispatch (env : Env) (args : ArgsDict) (email : String) (tcid : String)
    (hkeys : ∀ kv ∈ args, kv.1 = "email" ∨ kv.1 = "name" ∨ kv.1 = "notes")
    (hemail : List.lookup "email" args = some email) :
    call_record_user_details env args =
      Except.ok (record_user_details env email
        ((List.lookup "name" args).getD "Not provided")
        ((List.lookup "notes" args).getD "not provided")) ∧
    record_user_details env email
        ((List.lookup "name" args).getD "Not provided")
        ((List.lookup "notes" args).getD "not provided") =
      JVal.jobj [("status", JVal.jstr "success")] ∧
    handle_tool_calls env [⟨tcid, ⟨"record_user_details", some args⟩⟩] =
      Except.ok [Message.tool (jsonDumps (record_user_details env email
        ((List.lookup "name" args).getD "Not provided")
        ((List.lookup "notes" args).getD "not provided"))) tcid] := by
  have hcond : (args.any fun kv => !(kv.1 == "email" || kv.1 == "name" || kv.1 == "notes")) = false := by
    rw [List.any_eq_false]
    intro kv hkv
    rcases hkeys kv hkv with h | h | h <;> simp [h]
  have h1 : call_record_user_details env args =
      Except.ok (record_user_details env email
        ((List.lookup "name" args).getD "Not provided")
        ((List.lookup "notes" args).getD "not provided")) := by
    unfold call_record_user_details
    rw [hcond, hemail]
    rfl
  refine ⟨h1, rfl, ?_⟩
  rw [handle_tool_calls]
  dsimp only
  rw [if_pos rfl]
  rw [h1]
  dsimp only
  rw [handle_tool_calls]

/-- C6 witness: declared keys with the optional `name` omitted dispatch
successfully and produce the serialized success result under the request id. -/
theorem C6_witness :
    call_record_user_details sampleEnv [("email", "a@b.com"), ("notes", "vip")] =
      Except.ok (JVal.jobj [("status", JVal.jstr "success")]) ∧
    record_user_details sampleEnv "a@b.com" "Not provided" "vip" =
      JVal.jobj [("status", JVal.jstr "success")] ∧
    handle_tool_calls sampleEnv
      [⟨"id9", ⟨"record_user_details", some [("email", "a@b.com"), ("notes", "vip")]⟩⟩] =
      Except.ok [Message.tool (jsonDumps (JVal.jobj [("status", JVal.jstr "success")])) "id9"] := by
  have h := C6_declared_args_dispatch sampleEnv [("email", "a@b.com"), ("notes", "vip")]
    "a@b.com" "id9" (by decide) rfl
  exact h

/-- C6 counterexample: decoded arguments containing the required `email` plus
an unknown extra key make the dispatch raise `TypeError` instead of invoking
the handler (and the turn aborts), refuting "extra keys are tolerated". -/
theorem C6_counterexample_extra_key :
    handle_tool_calls sampleEnv
      [⟨"id1", ⟨"record_user_details", some [("email", "a@b.com"), ("extra", "x")]⟩⟩] =
      Except.error (PyExc.typeError "record_user_details got an unexpected keyword argument") ∧
    chat sampleEnv
      (fun n => match n with
        | 0 => ApiOutcome.ok ⟨"tool_calls",
            ⟨none, [⟨"id1", ⟨"record_user_details", some [("email", "a@b.com"), ("extra", "x")]⟩⟩]⟩⟩
        | _ => ApiOutcome.ok respStop)
      "hello" [] = Except.error PyExc.attributeError :=
  ⟨rfl, rfl⟩

/-- C7: a tool-call request whose name is not one of the two registered tools
raises nothing and is silently skipped — no tool-result message is appended for
it, no error is recorded — and the turn completes normally through the
final-answer channel. -/
theorem C7_unknown_tool_skipped (env : Env) (tc : ToolCall) (rest : List ToolCall)
    (h1 : tc.function.name ≠ "record_user_details")
    (h2 : tc.function.name ≠ "record_unknown_question")
    (api : Nat → ApiOutcome) (r0 r1 : ChatResponse)
    (hapi0 : api 0 = ApiOutcome.ok r0) (hfr0 : r0.finish_reason = "tool_calls")
    (htc : r0.message.tool_calls = [tc])
    (hapi1 : api 1 = ApiOutcome.ok r1) (hfr1 : r1.finish_reason ≠ "tool_calls")
    (message : String) (history : List Message) :
    handle_tool_calls env (tc :: rest) = handle_tool_calls env rest ∧
    handle_tool_calls env [tc] = Except.ok [] ∧
    chat env api message history = Except.ok (final_return r1.message.content) ∧
    (chatTrace env api message history).messages =
      (Message.system (system_prompt env.resume_summary env.resume_data)
        :: history ++ [Message.user message])
        ++ [Message.assistant r0.message.content r0.message.tool_calls] := by
  have hskip : ∀ l, handle_tool_calls env (tc :: l) = handle_tool_calls env l := by
    intro l
    rw [handle_tool_calls, if_neg h1, if_neg h2]
  have hbatch : handle_tool_calls env r0.message.tool_calls = Except.ok [] := by
    rw [htc, hskip, handle_tool_calls]
  have hloop : chatTrace env api message history =
      ⟨ChatOutcome.finished r1,
        (Message.system (system_prompt env.resume_summary env.resume_data)
          :: history ++ [Message.user message]) ++ batchesFrom (fun _ => r0) (fun _ => []) 1,
        history, 2⟩ := by
    unfold chatTrace
    rw [chatLoop_steps env api (fun _ => r0) (fun _ => []) 1 10
        (Message.system (system_prompt env.resume_summary env.resume_data)
          :: history ++ [Message.user message]) history (by omega)
        (by
          intro i hi
          exact ⟨by
            have hi0 : i = 0 := by omega
            rw [hi0]
            exact hapi0, hfr0, hbatch⟩),
      chatLoop_final env api (10 - 1) _ history 1 r1 hapi1 hfr1]
  refine ⟨hskip rest, by rw [hskip, handle_tool_calls], ?_, ?_⟩
  · unfold chat
    rw [hloop]
  · rw [hloop]
    simp [batchesFrom]

/-- C7 witness: an unregistered `get_weather` request is skipped without error
and the turn returns the final response's content. -/
theorem C7_witness :
    handle_tool_calls sampleEnv [unknownCall] = Except.ok [] ∧
    chat sampleEnv apiUnknownTool "hello" [] = Except.ok "All done." := by
  have h := C7_unknown_tool_skipped sampleEnv unknownCall [] (by decide) (by decide)
    apiUnknownTool ⟨"tool_calls", ⟨none, [unknownCall]⟩⟩ respStop rfl rfl rfl rfl
    (by decide) "hello" []
  exact ⟨h.2.1, h.2.2.1⟩

end CareerAgent
